import Mathlib

/-!
Verification of behavioural claims about the CIE-program/summer-2025 repository.

Each Python source function relevant to a claim is shallowly embedded as an
executable Lean definition.  External collaborators (vector stores, the chain
provider, the pinning service, HTTP) are modelled as explicit environments
recording the outcome of each external call; the embedded functions return
their result together with the ordered trace of external calls they perform,
so that ordering and abort/skip behaviour can be stated and proved.
-/

namespace DualStore

/-! ## `src/SW1/3.RAG-VectorDBs/PC-QD-VDB-ChatBot.py`

Embedding of `VectorDBChatbot.generate_response` (context assembly, lines
177-198) and `VectorDBChatbot.add_knowledge` (lines 84-130). -/

/-- The deduplication loop of `generate_response` (lines 190-195): walk the
combined context list keeping the first occurrence of each text.  `seen` is
the `seen` set of the Python code, modelled as the list of texts added so
far. -/
def dedupLoop (seen : List String) : List String → List String
  | [] => []
  | c :: cs =>
      if c ∈ seen then dedupLoop seen cs
      else c :: dedupLoop (c :: seen) cs

/-- Context assembly of `generate_response` (lines 182-198): concatenate the
Pinecone result texts with the Qdrant result texts, deduplicate preserving
first-seen order, and truncate to the first 5 passages. -/
def contextPassages (pineconeTexts qdrantTexts : List String) : List String :=
  (dedupLoop [] (pineconeTexts ++ qdrantTexts)).take 5

/-- The context string passed in the system prompt (line 198): the selected
passages joined by a blank line, or the fixed fallback sentence when no
passage was retrieved. -/
def contextString (pineconeTexts qdrantTexts : List String) : String :=
  let u := contextPassages pineconeTexts qdrantTexts
  if u.isEmpty then "No relevant information found."
  else String.intercalate "\n\n" u

/-- Elements produced by the dedup loop were not in `seen` and occur in the
input. -/
theorem dedupLoop_mem (seen : List String) (l : List String) :
    ∀ x ∈ dedupLoop seen l, x ∉ seen ∧ x ∈ l := by
  induction l generalizing seen with
  | nil => intro x hx; simp [dedupLoop] at hx
  | cons c cs ih =>
      intro x hx
      simp only [dedupLoop] at hx
      by_cases hc : c ∈ seen
      · simp only [if_pos hc] at hx
        rcases ih seen x hx with ⟨h1, h2⟩
        exact ⟨h1, List.mem_cons_of_mem _ h2⟩
      · simp only [if_neg hc] at hx
        rcases List.mem_cons.mp hx with rfl | hx
        · exact ⟨hc, List.mem_cons_self _ _⟩
        · rcases ih (c :: seen) x hx with ⟨h1, h2⟩
          refine ⟨fun hs => h1 (List.mem_cons_of_mem _ hs), List.mem_cons_of_mem _ h2⟩

/-- The dedup loop yields a list without duplicates. -/
theorem dedupLoop_nodup (seen : List String) (l : List String) :
    (dedupLoop seen l).Nodup := by
  induction l generalizing seen with
  | nil => simp [dedupLoop]
  | cons c cs ih =>
      simp only [dedupLoop]
      by_cases hc : c ∈ seen
      · simpa [hc] using ih seen
      · simp only [if_neg hc, List.nodup_cons]
        refine ⟨fun hmem => ?_, ih (c :: seen)⟩
        exact (dedupLoop_mem (c :: seen) cs c hmem).1 (List.mem_cons_self _ _)

/-- The dedup loop output is a sublist of its input (so relative order is the
first-seen order of the input). -/
theorem dedupLoop_sublist (seen : List String) (l : List String) :
    (dedupLoop seen l).Sublist l := by
  induction l generalizing seen with
  | nil => simp [dedupLoop]
  | cons c cs ih =>
      simp only [dedupLoop]
      by_cases hc : c ∈ seen
      · exact List.Sublist.cons _ (by simpa [hc] using ih seen)
      · simp only [if_neg hc]
        exact List.Sublist.cons₂ c (ih (c :: seen))

/-- Successive outputs of the dedup loop occur at strictly increasing first
positions of the input list: the loop keeps first-seen order. -/
theorem dedupLoop_pairwise_indexOf (seen : List String) (l : List String) :
    (dedupLoop seen l).Pairwise (fun a b => l.indexOf a < l.indexOf b) := by
  induction l generalizing seen with
  | nil => simp [dedupLoop]
  | cons c cs ih =>
      simp only [dedupLoop]
      by_cases hc : c ∈ seen
      · simp only [if_pos hc]
        refine (ih seen).imp_of_mem ?_
        intro a b ha hb hab
        have hac : a ≠ c := fun h => (dedupLoop_mem seen cs a ha).1 (h ▸ hc)
        have hbc : b ≠ c := fun h => (dedupLoop_mem seen cs b hb).1 (h ▸ hc)
        rw [List.indexOf_cons_ne _ hac.symm, List.indexOf_cons_ne _ hbc.symm]
        exact Nat.succ_lt_succ hab
      · simp only [if_neg hc, List.pairwise_cons]
        constructor
        · intro b hb
          have hbc : b ≠ c := fun h =>
            (dedupLoop_mem (c :: seen) cs b hb).1 (h ▸ List.mem_cons_self _ _)
          rw [List.indexOf_cons_self, List.indexOf_cons_ne _ hbc.symm]
          exact Nat.succ_pos _
        · refine (ih (c :: seen)).imp_of_mem ?_
          intro a b ha hb hab
          have hac : a ≠ c := fun h =>
            (dedupLoop_mem (c :: seen) cs a ha).1 (h ▸ List.mem_cons_self _ _)
          have hbc : b ≠ c := fun h =>
            (dedupLoop_mem (c :: seen) cs b hb).1 (h ▸ List.mem_cons_self _ _)
          rw [List.indexOf_cons_ne _ hac.symm, List.indexOf_cons_ne _ hbc.symm]
          exact Nat.succ_lt_succ hab

/-! ### `add_knowledge` (lines 84-130)

External behaviour of the two vector stores is a mock environment: each
store is enabled or not, and its `upsert` either succeeds or raises.  The
function returns the final mock store contents together with the ordered
trace of external calls. -/

/-- External calls performed by `add_knowledge`: the embedding computation
(line 90), the per-store upsert calls (lines 106, 123), their success
prints, and the per-store failure logs (lines 110, 130). -/
inductive KEvent
  | encode
  | pineconeUpsert
  | pineconeOk
  | pineconeFailLog
  | qdrantUpsert
  | qdrantOk
  | qdrantFailLog
deriving DecidableEq, Repr

/-- Mock environment for `add_knowledge`: which stores are enabled
(`self.use_pinecone`, `self.use_qdrant`) and whether each store's `upsert`
raises when called. -/
structure StoreEnv where
  usePinecone : Bool
  useQdrant : Bool
  pineconeRaises : Bool
  qdrantRaises : Bool
deriving DecidableEq, Repr

/-- Mock contents of the two vector stores (the texts upserted, in order). -/
structure Stores where
  pinecone : List String
  qdrant : List String
deriving DecidableEq, Repr

/-- Embedding of `VectorDBChatbot.add_knowledge` (lines 84-130): empty input
returns immediately (line 86-87); otherwise embeddings are computed once
(line 90), then each enabled store's upsert is attempted inside its own
try/except — a raising upsert is logged and the function continues to the
other store. -/
def add_knowledge (env : StoreEnv) (texts : List String) (st : Stores) :
    Stores × List KEvent :=
  if texts.isEmpty then (st, [])
  else
    let p :=
      if env.usePinecone then
        if env.pineconeRaises then (st, [KEvent.pineconeUpsert, KEvent.pineconeFailLog])
        else ({ st with pinecone := st.pinecone ++ texts },
              [KEvent.pineconeUpsert, KEvent.pineconeOk])
      else (st, [])
    let q :=
      if env.useQdrant then
        if env.qdrantRaises then (p.1, [KEvent.qdrantUpsert, KEvent.qdrantFailLog])
        else ({ p.1 with qdrant := p.1.qdrant ++ texts },
              [KEvent.qdrantUpsert, KEvent.qdrantOk])
      else (p.1, [])
    (q.1, KEvent.encode :: (p.2 ++ q.2))

end DualStore

/-- C1: for every pair of retrieved result lists (Pinecone then Qdrant), the
context passage list built by `generate_response` has no duplicate text, has
at most 5 passages, is a sublist of the union of the two result lists, and
lists passages in strictly increasing order of first occurrence in that
union (first-seen order). -/
theorem c1_generate_response_dedup (p q : List String) :
    (DualStore.contextPassages p q).Nodup ∧
    (DualStore.contextPassages p q).length ≤ 5 ∧
    (DualStore.contextPassages p q).Sublist (p ++ q) ∧
    (DualStore.contextPassages p q).Pairwise
      (fun a b => (p ++ q).indexOf a < (p ++ q).indexOf b) := by
  refine ⟨?_, ?_, ?_, ?_⟩
  · exact ((List.take_sublist _ _).nodup (DualStore.dedupLoop_nodup [] (p ++ q)))
  · simp [DualStore.contextPassages, List.length_take_le]
  · exact (List.take_sublist _ _).trans (DualStore.dedupLoop_sublist [] (p ++ q))
  · exact (DualStore.dedupLoop_pairwise_indexOf [] (p ++ q)).sublist (List.take_sublist _ _)

/-- C3: with both stores enabled and a non-empty text list, when the upsert
into one store raises, that failure is logged and the upsert into the other
store is still attempted; if the other store does not itself raise, it gains
the texts.  The call never aborts: `add_knowledge` is a total function
returning a trace, mirroring the fact that each upsert sits in its own
try/except. -/
theorem c3_add_knowledge_partial_failure_isolation
    (env : DualStore.StoreEnv) (texts : List String) (st : DualStore.Stores)
    (hp : env.usePinecone = true) (hq : env.useQdrant = true)
    (hne : texts ≠ []) :
    (env.pineconeRaises = true →
      DualStore.KEvent.pineconeFailLog ∈ (DualStore.add_knowledge env texts st).2 ∧
      DualStore.KEvent.qdrantUpsert ∈ (DualStore.add_knowledge env texts st).2 ∧
      (env.qdrantRaises = false →
        (DualStore.add_knowledge env texts st).1.qdrant = st.qdrant ++ texts)) ∧
    (env.qdrantRaises = true →
      DualStore.KEvent.qdrantFailLog ∈ (DualStore.add_knowledge env texts st).2 ∧
      DualStore.KEvent.pineconeUpsert ∈ (DualStore.add_knowledge env texts st).2 ∧
      (env.pineconeRaises = false →
        (DualStore.add_knowledge env texts st).1.pinecone = st.pinecone ++ texts)) := by
  have hne' : texts.isEmpty = false := by
    cases texts with
    | nil => exact absurd rfl hne
    | cons a l => rfl
  constructor
  · intro hpr
    refine ⟨?_, ?_, ?_⟩
    · cases hqr : env.qdrantRaises <;>
        simp [DualStore.add_knowledge, hne', hp, hq, hpr, hqr]
    · cases hqr : env.qdrantRaises <;>
        simp [DualStore.add_knowledge, hne', hp, hq, hpr, hqr]
    · intro hqr
      simp [DualStore.add_knowledge, hne', hp, hq, hpr, hqr]
  · intro hqr
    refine ⟨?_, ?_, ?_⟩
    · cases hpr : env.pineconeRaises <;>
        simp [DualStore.add_knowledge, hne', hp, hq, hpr, hqr]
    · cases hpr : env.pineconeRaises <;>
        simp [DualStore.add_knowledge, hne', hp, hq, hpr, hqr]
    · intro hpr
      simp [DualStore.add_knowledge, hne', hp, hq, hpr, hqr]

/-- Witness for C3 at a concrete environment: Pinecone raises, Qdrant does
not, one text is added. -/
theorem c3_add_knowledge_partial_failure_isolation_witness :
    let env : DualStore.StoreEnv :=
      { usePinecone := true, useQdrant := true,
        pineconeRaises := true, qdrantRaises := false }
    let st : DualStore.Stores := { pinecone := [], qdrant := [] }
    DualStore.KEvent.pineconeFailLog ∈ (DualStore.add_knowledge env ["t"] st).2 ∧
    DualStore.KEvent.qdrantUpsert ∈ (DualStore.add_knowledge env ["t"] st).2 ∧
    (DualStore.add_knowledge env ["t"] st).1.qdrant = [] ++ ["t"] := by
  intro env st
  have h := c3_add_knowledge_partial_failure_isolation env ["t"] st rfl rfl
    (by decide)
  rcases h.1 rfl with ⟨h1, h2, h3⟩
  exact ⟨h1, h2, h3 rfl⟩

/-- C10: with an empty text list, `add_knowledge` returns immediately: the
trace is empty (no embedding computation, no upsert on either store) and the
store contents are unchanged. -/
theorem c10_add_knowledge_empty_noop
    (env : DualStore.StoreEnv) (texts : List String) (st : DualStore.Stores)
    (h : texts = []) :
    DualStore.add_knowledge env texts st = (st, []) := by
  subst h
  simp [DualStore.add_knowledge]

/-- Witness for C10 at a concrete environment and store contents. -/
theorem c10_add_knowledge_empty_noop_witness :
    DualStore.add_knowledge
      { usePinecone := true, useQdrant := true,
        pineconeRaises := false, qdrantRaises := false }
      [] { pinecone := ["a"], qdrant := ["b"] } =
      ({ pinecone := ["a"], qdrant := ["b"] }, []) :=
  c10_add_knowledge_empty_noop _ [] _ rfl

namespace BadgeAPI

/-! ## `src/SW2/StudentNFT/Python/StudentNFTAPI.py`

Embedding of the Flask endpoint `upload_metadata` (lines 179-266) and the
endpoint `list_minted_badges` (lines 269-317).  Outcomes of external calls
(the pinning service, the URL shortener, the chain provider, plain HTTP) are
supplied by explicit environments; each embedded endpoint returns its HTTP
result together with the ordered trace of external calls it performed. -/

/-- External calls performed by `upload_metadata`: the image upload to the
pinning service (line 202), the URL shortening (line 207), the metadata
document upload (line 232), and the append to the local mirror file
`StudentBadgeData.json` (lines 254-264). -/
inductive UEvent
  | imageUploadCall
  | shortenCall
  | metadataUploadCall
  | appendRecord
deriving DecidableEq, Repr

/-- A record of the local mirror file (lines 244-251). -/
structure BadgeFileRecord where
  student_name : String
  class_semester : String
  university : String
  badge_type : String
  grant_date : String
  metadata_uri : String
deriving DecidableEq, Repr

/-- Environment of one `upload_metadata` request: the request validation
facts (all required fields present, line 183; image file on disk, line 199),
the request field values, the formatted current date (line 191), the outcome
of each external call (`none` models the call raising an exception), and the
current contents of the local mirror file. -/
structure UploadEnv where
  fieldsPresent : Bool
  imageFileExists : Bool
  studentName : String
  classSemester : String
  university : String
  badgeType : String
  grantDate : String
  imageUpload : Option String
  shorten : Option String
  metadataUpload : Option String
  mirror : List BadgeFileRecord
deriving DecidableEq, Repr

/-- HTTP result of one `upload_metadata` request.  `json400` is
`jsonify(\x7berror: ...\x7d), 400`; `json200` is the success response with
the metadata URI; `serverError` models an exception escaping the handler —
the handler has no try/except, so Flask turns the exception into its default
500 internal-server-error page. -/
inductive UploadResult
  | json400 (msg : String)
  | json200 (metadataUri : String)
  | serverError
deriving DecidableEq, Repr

/-- The 400 message of line 200 for a missing badge image. -/
def imageMissingMsg (badgeType : String) : String :=
  "Image for badge type " ++ badgeType ++ " not found."

/-- Embedding of the endpoint `upload_metadata` (lines 179-266): validate
fields (400 on missing), check the image file (400 on missing), upload the
image, shorten its gateway URL, upload the metadata document, append the
mirror record, return the metadata URI.  Each external step that raises
propagates out of the handler (`serverError`); nothing after the failing
step runs. -/
def upload_metadata (env : UploadEnv) :
    UploadResult × List UEvent × List BadgeFileRecord :=
  if env.fieldsPresent = false then
    (UploadResult.json400 "Missing required fields", [], env.mirror)
  else if env.imageFileExists = false then
    (UploadResult.json400 (imageMissingMsg env.badgeType), [], env.mirror)
  else
    match env.imageUpload with
    | none => (UploadResult.serverError, [UEvent.imageUploadCall], env.mirror)
    | some _cid =>
      match env.shorten with
      | none =>
          (UploadResult.serverError,
           [UEvent.imageUploadCall, UEvent.shortenCall], env.mirror)
      | some _shortUrl =>
        match env.metadataUpload with
        | none =>
            (UploadResult.serverError,
             [UEvent.imageUploadCall, UEvent.shortenCall, UEvent.metadataUploadCall],
             env.mirror)
        | some ipfsHash =>
            let uri := "https://gateway.pinata.cloud/ipfs/" ++ ipfsHash
            let record : BadgeFileRecord :=
              { student_name := env.studentName,
                class_semester := env.classSemester,
                university := env.university,
                badge_type := env.badgeType,
                grant_date := env.grantDate,
                metadata_uri := uri }
            (UploadResult.json200 uri,
             [UEvent.imageUploadCall, UEvent.shortenCall, UEvent.metadataUploadCall,
              UEvent.appendRecord],
             env.mirror ++ [record])

/-- The full saga order of `upload_metadata`: image upload, URL shortening,
metadata upload, mirror append. -/
def sagaOrder : List UEvent :=
  [UEvent.imageUploadCall, UEvent.shortenCall, UEvent.metadataUploadCall,
   UEvent.appendRecord]

end BadgeAPI

/-- C2: every execution of `uploadMetadata` performs a prefix of the saga
order (image upload, then URL shortening, then metadata upload, then mirror
append) — so the image upload always precedes the metadata upload; a
metadata URI is returned only when the whole saga ran; and when the metadata
upload was reached and raised, the endpoint ends in an error (the exception
escapes the handler, never a silent success) and the local mirror file is
unchanged. -/
theorem c2_upload_metadata_saga (env : BadgeAPI.UploadEnv) :
    (∃ k, (BadgeAPI.upload_metadata env).2.1 = BadgeAPI.sagaOrder.take k) ∧
    (∀ uri, (BadgeAPI.upload_metadata env).1 = BadgeAPI.UploadResult.json200 uri →
      (BadgeAPI.upload_metadata env).2.1 = BadgeAPI.sagaOrder) ∧
    (BadgeAPI.UEvent.metadataUploadCall ∈ (BadgeAPI.upload_metadata env).2.1 →
      env.metadataUpload = none →
      (BadgeAPI.upload_metadata env).1 = BadgeAPI.UploadResult.serverError ∧
      (BadgeAPI.upload_metadata env).2.2 = env.mirror) := by
  cases hf : env.fieldsPresent with
  | false =>
      refine ⟨⟨0, by simp [BadgeAPI.upload_metadata, hf]⟩, ?_, ?_⟩ <;>
        simp [BadgeAPI.upload_metadata, hf]
  | true =>
      cases hi : env.imageFileExists with
      | false =>
          refine ⟨⟨0, by simp [BadgeAPI.upload_metadata, hf, hi]⟩, ?_, ?_⟩ <;>
            simp [BadgeAPI.upload_metadata, hf, hi]
      | true =>
          rcases hu : env.imageUpload with _ | cid
          · refine ⟨⟨1, by simp [BadgeAPI.upload_metadata, hf, hi, hu,
                BadgeAPI.sagaOrder]⟩, ?_, ?_⟩ <;>
              simp [BadgeAPI.upload_metadata, hf, hi, hu, BadgeAPI.sagaOrder]
          · rcases hs : env.shorten with _ | su
            · refine ⟨⟨2, by simp [BadgeAPI.upload_metadata, hf, hi, hu, hs,
                  BadgeAPI.sagaOrder]⟩, ?_, ?_⟩ <;>
                simp [BadgeAPI.upload_metadata, hf, hi, hu, hs, BadgeAPI.sagaOrder]
            · rcases hm : env.metadataUpload with _ | mh
              · refine ⟨⟨3, by simp [BadgeAPI.upload_metadata, hf, hi, hu, hs, hm,
                    BadgeAPI.sagaOrder]⟩, ?_, ?_⟩ <;>
                  simp [BadgeAPI.upload_metadata, hf, hi, hu, hs, hm, BadgeAPI.sagaOrder]
              · refine ⟨⟨4, by simp [BadgeAPI.upload_metadata, hf, hi, hu, hs, hm,
                    BadgeAPI.sagaOrder]⟩, ?_, ?_⟩ <;>
                  simp [BadgeAPI.upload_metadata, hf, hi, hu, hs, hm, BadgeAPI.sagaOrder]

/-- Witness for C2 at a concrete request: image upload succeeds, the
metadata upload raises — the endpoint ends in a server error and the mirror
file stays empty. -/
theorem c2_upload_metadata_saga_witness :
    let env : BadgeAPI.UploadEnv :=
      { fieldsPresent := true, imageFileExists := true,
        studentName := "s", classSemester := "c", university := "u",
        badgeType := "b", grantDate := "2025-06-01",
        imageUpload := some "cid1", shorten := some "tiny",
        metadataUpload := none, mirror := [] }
    (BadgeAPI.upload_metadata env).1 = BadgeAPI.UploadResult.serverError ∧
    (BadgeAPI.upload_metadata env).2.2 = env.mirror ∧
    (∃ k, (BadgeAPI.upload_metadata env).2.1 = BadgeAPI.sagaOrder.take k) := by
  intro env
  have h := c2_upload_metadata_saga env
  have h3 := h.2.2 (by simp [BadgeAPI.upload_metadata, env]) rfl
  exact ⟨h3.1, h3.2, h.1⟩

/-- C5 counterexample: a request with all fields present and the badge image
on disk whose image upload to the pinning service raises.  The handler has
no try/except around that call, so the exception escapes and the
user-visible failure is the framework's 500 internal server error — not a
400 JSON error object. -/
theorem c5_counterexample_image_upload_failure_is_500 :
    (BadgeAPI.upload_metadata
      { fieldsPresent := true, imageFileExists := true,
        studentName := "s", classSemester := "c", university := "u",
        badgeType := "b", grantDate := "2025-06-01",
        imageUpload := none, shorten := some "tiny",
        metadataUpload := some "hash", mirror := [] }).1 =
      BadgeAPI.UploadResult.serverError ∧
    ∀ msg, (BadgeAPI.upload_metadata
      { fieldsPresent := true, imageFileExists := true,
        studentName := "s", classSemester := "c", university := "u",
        badgeType := "b", grantDate := "2025-06-01",
        imageUpload := none, shorten := some "tiny",
        metadataUpload := some "hash", mirror := [] }).1 ≠
      BadgeAPI.UploadResult.json400 msg := by
  constructor
  · rfl
  · intro msg h
    simp [BadgeAPI.upload_metadata] at h

/-- C5 amended: only the two request-validation failures (missing field,
missing image file) return a JSON error object with HTTP 400; a failure in
the image upload, the URL shortening, or the metadata upload raises out of
the handler and surfaces as the framework's 500 internal server error. -/
theorem c5_amended_upload_metadata_failure_modes (env : BadgeAPI.UploadEnv) :
    (env.fieldsPresent = false →
      (BadgeAPI.upload_metadata env).1 =
        BadgeAPI.UploadResult.json400 "Missing required fields") ∧
    (env.fieldsPresent = true → env.imageFileExists = false →
      (BadgeAPI.upload_metadata env).1 =
        BadgeAPI.UploadResult.json400 (BadgeAPI.imageMissingMsg env.badgeType)) ∧
    (env.fieldsPresent = true → env.imageFileExists = true →
      (env.imageUpload = none ∨
       (∃ c, env.imageUpload = some c ∧ env.shorten = none) ∨
       (∃ c s, env.imageUpload = some c ∧ env.shorten = some s ∧
         env.metadataUpload = none)) →
      (BadgeAPI.upload_metadata env).1 = BadgeAPI.UploadResult.serverError) := by
  refine ⟨?_, ?_, ?_⟩
  · intro hf
    simp [BadgeAPI.upload_metadata, hf]
  · intro hf hi
    simp [BadgeAPI.upload_metadata, hf, hi]
  · intro hf hi hcase
    rcases hcase with hu | ⟨c, hu, hs⟩ | ⟨c, s, hu, hs, hm⟩
    · simp [BadgeAPI.upload_metadata, hf, hi, hu]
    · simp [BadgeAPI.upload_metadata, hf, hi, hu, hs]
    · simp [BadgeAPI.upload_metadata, hf, hi, hu, hs, hm]

/-- Witness for the amended C5 at concrete requests: a missing field yields
the 400 JSON error, and a raising URL shortening yields a server error. -/
theorem c5_amended_upload_metadata_failure_modes_witness :
    (BadgeAPI.upload_metadata
      { fieldsPresent := false, imageFileExists := true,
        studentName := "s", classSemester := "c", university := "u",
        badgeType := "b", grantDate := "2025-06-01",
        imageUpload := some "cid1", shorten := some "tiny",
        metadataUpload := some "hash", mirror := [] }).1 =
      BadgeAPI.UploadResult.json400 "Missing required fields" ∧
    (BadgeAPI.upload_metadata
      { fieldsPresent := true, imageFileExists := true,
        studentName := "s", classSemester := "c", university := "u",
        badgeType := "b", grantDate := "2025-06-01",
        imageUpload := some "cid1", shorten := none,
        metadataUpload := some "hash", mirror := [] }).1 =
      BadgeAPI.UploadResult.serverError := by
  constructor
  · exact (c5_amended_upload_metadata_failure_modes _).1 rfl
  · exact (c5_amended_upload_metadata_failure_modes _).2.2 rfl rfl
      (Or.inr (Or.inl ⟨"cid1", rfl, rfl⟩))

namespace BadgeAPI

/-! ### `list_minted_badges` (lines 269-317) -/

/-- Parsed metadata document of one badge (shape produced by
`upload_metadata`, lines 212-222): the optional `certificate_url` field and
the attribute list, each attribute a single key/value pair. -/
structure BadgeJson where
  certificate_url : Option String
  attributes : List (String × String)
deriving DecidableEq, Repr

/-- Outcome of `requests.get(metadata_uri)` (line 294): either the request
raises, or a response arrives with a status code and a body whose JSON
decoding (line 297) either raises (`Except.error`) or yields a parsed
document. -/
inductive HttpOutcome
  | raised (e : String)
  | resp (status : Nat) (body : Except String BadgeJson)
deriving Repr

/-- Environment of one `list_minted_badges` request: the outcome of the
`totalSupply` contract call, of each `tokenURI` contract call, and of each
HTTP metadata dereference (`Except.error` models the call raising). -/
structure ChainEnv where
  totalSupply : Except String Int
  tokenURI : Int → Except String String
  http : String → HttpOutcome

/-- The token ids walked by the listing loop (line 282):
`range(1, latest_id + 1)`, in ascending order. -/
def tokenIds (n : Int) : List Int :=
  (List.range n.toNat).map (fun k => (k : Int) + 1)

/-- The first loop of `list_minted_badges` (lines 282-285): read each
token's URI; the first raising call aborts the whole phase (the loop sits in
one try). -/
def readTokenURIs (f : Int → Except String String) :
    List Int → Except String (List String)
  | [] => Except.ok []
  | i :: is =>
      match f i with
      | Except.error e => Except.error e
      | Except.ok u => (readTokenURIs f is).map (fun rest => u :: rest)

/-- The dict comprehension of lines 302-304 followed by `.get(key, "N/A")`:
for duplicate attribute keys the later entry wins, absent keys default to
`"N/A"`. -/
def lookupAttr (attrs : List (String × String)) (key : String) : String :=
  match attrs.reverse.find? (fun p => p.1 = key) with
  | some p => p.2
  | none => "N/A"

/-- The fixed six-field display record of lines 305-312, in order. -/
def buildRecord (j : BadgeJson) : List (String × String) :=
  [("Student Name", lookupAttr j.attributes "Student"),
   ("Badge Grant Date", lookupAttr j.attributes "Date"),
   ("Badge Type", lookupAttr j.attributes "Badge Type"),
   ("Class or Semester", lookupAttr j.attributes "Class"),
   ("University", lookupAttr j.attributes "University"),
   ("Certificate URL", j.certificate_url.getD "N/A")]

/-- The second loop of `list_minted_badges` (lines 290-316): dereference
each metadata URI.  A raising HTTP request or a raising JSON decode aborts
the whole phase (`Except.error`); a response with a non-200 status is
skipped (`continue`, line 296) and the loop moves on. -/
def processUris (http : String → HttpOutcome) :
    List String → Except String (List (List (String × String)))
  | [] => Except.ok []
  | u :: us =>
      match http u with
      | HttpOutcome.raised e => Except.error e
      | HttpOutcome.resp status body =>
          if status ≠ 200 then processUris http us
          else
            match body with
            | Except.error e => Except.error e
            | Except.ok j =>
                (processUris http us).map (fun rest => buildRecord j :: rest)

/-- HTTP result of `list_minted_badges`: the 400 error of the token-URI
phase (line 287), the 400 error of the dereference phase (line 315), the
`jsonify(0), 200` response for a non-positive supply (line 281), or the 200
list of display records (line 317). -/
inductive ListResult
  | errTokenURI (msg : String)
  | errBadgeDetails (msg : String)
  | okNum (n : Int)
  | okList (records : List (List (String × String)))
deriving DecidableEq, Repr

/-- Embedding of the endpoint `list_minted_badges` (lines 269-317). -/
def list_minted_badges (env : ChainEnv) : ListResult :=
  match env.totalSupply with
  | Except.error e => ListResult.errTokenURI e
  | Except.ok n =>
      if n ≤ 0 then ListResult.okNum 0
      else
        match readTokenURIs env.tokenURI (tokenIds n) with
        | Except.error e => ListResult.errTokenURI e
        | Except.ok uris =>
            match processUris env.http uris with
            | Except.error e => ListResult.errBadgeDetails e
            | Except.ok recs => ListResult.okList recs

/-- The six display field names, in the order of lines 305-312. -/
def displayFields : List String :=
  ["Student Name", "Badge Grant Date", "Badge Type", "Class or Semester",
   "University", "Certificate URL"]

end BadgeAPI

/-- C7: with a contract reporting `totalSupply = 2` and two token URIs that
each resolve (status 200) to a well-formed metadata document,
`list_minted_badges` returns exactly the two display records, built from
token 1's document then token 2's document (token-id ascending), and every
display record carries exactly the fixed six field names in order. -/
theorem c7_list_minted_badges_shape (env : BadgeAPI.ChainEnv)
    (u1 u2 : String) (j1 j2 : BadgeAPI.BadgeJson)
    (hts : env.totalSupply = Except.ok 2)
    (h1 : env.tokenURI 1 = Except.ok u1)
    (h2 : env.tokenURI 2 = Except.ok u2)
    (hh1 : env.http u1 = BadgeAPI.HttpOutcome.resp 200 (Except.ok j1))
    (hh2 : env.http u2 = BadgeAPI.HttpOutcome.resp 200 (Except.ok j2)) :
    BadgeAPI.list_minted_badges env =
      BadgeAPI.ListResult.okList [BadgeAPI.buildRecord j1, BadgeAPI.buildRecord j2] ∧
    [BadgeAPI.buildRecord j1, BadgeAPI.buildRecord j2].length = 2 ∧
    ∀ j : BadgeAPI.BadgeJson,
      (BadgeAPI.buildRecord j).map Prod.fst = BadgeAPI.displayFields := by
  have htok : BadgeAPI.tokenIds 2 = [1, 2] := by decide
  refine ⟨?_, rfl, fun j => rfl⟩
  have hr : BadgeAPI.readTokenURIs env.tokenURI [1, 2] = Except.ok [u1, u2] := by
    simp [BadgeAPI.readTokenURIs, h1, h2, Except.map]
  have hp : BadgeAPI.processUris env.http [u1, u2] =
      Except.ok [BadgeAPI.buildRecord j1, BadgeAPI.buildRecord j2] := by
    simp [BadgeAPI.processUris, hh1, hh2, Except.map]
  simp [BadgeAPI.list_minted_badges, hts, htok, hr, hp]

/-- Witness for C7 at a concrete chain environment with two minted tokens. -/
theorem c7_list_minted_badges_shape_witness :
    let j1 : BadgeAPI.BadgeJson :=
      { certificate_url := some "c1", attributes := [("Student", "A")] }
    let j2 : BadgeAPI.BadgeJson :=
      { certificate_url := some "c2", attributes := [("Student", "B")] }
    let env : BadgeAPI.ChainEnv :=
      { totalSupply := Except.ok 2,
        tokenURI := fun i => if i = 1 then Except.ok "u1" else Except.ok "u2",
        http := fun u =>
          if u = "u1" then BadgeAPI.HttpOutcome.resp 200 (Except.ok j1)
          else BadgeAPI.HttpOutcome.resp 200 (Except.ok j2) }
    BadgeAPI.list_minted_badges env =
      BadgeAPI.ListResult.okList [BadgeAPI.buildRecord j1, BadgeAPI.buildRecord j2] ∧
    [BadgeAPI.buildRecord j1, BadgeAPI.buildRecord j2].length = 2 ∧
    ∀ j : BadgeAPI.BadgeJson,
      (BadgeAPI.buildRecord j).map Prod.fst = BadgeAPI.displayFields := by
  intro j1 j2 env
  exact c7_list_minted_badges_shape env "u1" "u2" j1 j2 rfl rfl rfl rfl rfl

/-- C9: when the contract reports a non-positive total supply,
`list_minted_badges` answers 200 with the JSON number 0 — never with a list
of badge records. -/
theorem c9_list_minted_badges_zero_supply (env : BadgeAPI.ChainEnv) (n : Int)
    (hts : env.totalSupply = Except.ok n) (hn : n ≤ 0) :
    BadgeAPI.list_minted_badges env = BadgeAPI.ListResult.okNum 0 ∧
    ∀ recs, BadgeAPI.list_minted_badges env ≠ BadgeAPI.ListResult.okList recs := by
  have h : BadgeAPI.list_minted_badges env = BadgeAPI.ListResult.okNum 0 := by
    simp [BadgeAPI.list_minted_badges, hts, if_pos hn]
  refine ⟨h, fun recs hcontra => ?_⟩
  rw [h] at hcontra
  simp at hcontra

/-- Witness for C9 at a concrete environment reporting `totalSupply = 0`. -/
theorem c9_list_minted_badges_zero_supply_witness :
    BadgeAPI.list_minted_badges
      { totalSupply := Except.ok 0,
        tokenURI := fun _ => Except.error "no token",
        http := fun _ => BadgeAPI.HttpOutcome.raised "no fetch" } =
      BadgeAPI.ListResult.okNum 0 :=
  (c9_list_minted_badges_zero_supply _ 0 rfl (by decide)).1

/-- C4 counterexample: a contract with two minted tokens whose first
metadata URI dereferences to an HTTP 404 while the second resolves.
`list_minted_badges` does not abort with an error: the failed entry is
skipped (`continue`, line 296) and the endpoint returns 200 with the partial
one-record listing. -/
theorem c4_counterexample_non200_is_skipped :
    BadgeAPI.list_minted_badges
      { totalSupply := Except.ok 2,
        tokenURI := fun i => if i = 1 then Except.ok "u1" else Except.ok "u2",
        http := fun u =>
          if u = "u1" then
            BadgeAPI.HttpOutcome.resp 404
              (Except.ok { certificate_url := some "c1",
                           attributes := [("Student", "A")] })
          else
            BadgeAPI.HttpOutcome.resp 200
              (Except.ok { certificate_url := some "c2",
                           attributes := [("Student", "B")] }) } =
      BadgeAPI.ListResult.okList
        [BadgeAPI.buildRecord
          { certificate_url := some "c2", attributes := [("Student", "B")] }] := by
  rfl

/-- C4 amended: a failure that raises an exception — a failing contract read
or a raising HTTP request or JSON decode — aborts the whole listing with a
400 error; but a metadata dereference answered with a non-200 HTTP status is
skipped silently and the listing continues with the remaining entries. -/
theorem c4_amended_abort_vs_skip (env : BadgeAPI.ChainEnv)
    (f : String → BadgeAPI.HttpOutcome) (n : Int) (uris us : List String)
    (u e : String) (s : Nat) (b : Except String BadgeAPI.BadgeJson) :
    (f u = BadgeAPI.HttpOutcome.raised e →
      BadgeAPI.processUris f (u :: us) = Except.error e) ∧
    (f u = BadgeAPI.HttpOutcome.resp 200 (Except.error e) →
      BadgeAPI.processUris f (u :: us) = Except.error e) ∧
    (f u = BadgeAPI.HttpOutcome.resp s b → s ≠ 200 →
      BadgeAPI.processUris f (u :: us) = BadgeAPI.processUris f us) ∧
    (env.totalSupply = Except.error e →
      BadgeAPI.list_minted_badges env = BadgeAPI.ListResult.errTokenURI e) ∧
    (env.totalSupply = Except.ok n → 0 < n →
      BadgeAPI.readTokenURIs env.tokenURI (BadgeAPI.tokenIds n) = Except.error e →
      BadgeAPI.list_minted_badges env = BadgeAPI.ListResult.errTokenURI e) ∧
    (env.totalSupply = Except.ok n → 0 < n →
      BadgeAPI.readTokenURIs env.tokenURI (BadgeAPI.tokenIds n) = Except.ok uris →
      BadgeAPI.processUris env.http uris = Except.error e →
      BadgeAPI.list_minted_badges env = BadgeAPI.ListResult.errBadgeDetails e) := by
  refine ⟨?_, ?_, ?_, ?_, ?_, ?_⟩
  · intro hf
    simp [BadgeAPI.processUris, hf]
  · intro hf
    simp [BadgeAPI.processUris, hf]
  · intro hf hs
    simp [BadgeAPI.processUris, hf, if_pos hs]
  · intro hts
    simp [BadgeAPI.list_minted_badges, hts]
  · intro hts hn hr
    simp [BadgeAPI.list_minted_badges, hts, if_neg (not_le.mpr hn), hr]
  · intro hts hn hr hp
    simp [BadgeAPI.list_minted_badges, hts, if_neg (not_le.mpr hn), hr, hp]

/-- Witness for the amended C4 at concrete environments: a raising HTTP
request aborts the dereference phase with its error, and a raising
`totalSupply` read turns into the token-URI-phase 400 error. -/
theorem c4_amended_abort_vs_skip_witness :
    BadgeAPI.processUris (fun _ => BadgeAPI.HttpOutcome.raised "boom") ["u"] =
      Except.error "boom" ∧
    BadgeAPI.list_minted_badges
      { totalSupply := Except.error "rpc down",
        tokenURI := fun _ => Except.error "no token",
        http := fun _ => BadgeAPI.HttpOutcome.raised "no fetch" } =
      BadgeAPI.ListResult.errTokenURI "rpc down" := by
  constructor
  · exact (c4_amended_abort_vs_skip
      { totalSupply := Except.error "rpc down",
        tokenURI := fun _ => Except.error "no token",
        http := fun _ => BadgeAPI.HttpOutcome.raised "no fetch" }
      (fun _ => BadgeAPI.HttpOutcome.raised "boom") 1 [] [] "u" "boom" 0
      (Except.error "boom")).1 rfl
  · exact (c4_amended_abort_vs_skip
      { totalSupply := Except.error "rpc down",
        tokenURI := fun _ => Except.error "no token",
        http := fun _ => BadgeAPI.HttpOutcome.raised "no fetch" }
      (fun _ => BadgeAPI.HttpOutcome.raised "boom") 1 [] [] "u" "rpc down" 0
      (Except.error "boom")).2.2.2.1 rfl

namespace MultiModal

/-! ## `src/SW1/4.RAG-MultiModal1/ChatBot-MM-LParse-UI.py`

Embedding of `load_or_create_index` (lines 71-108) as the ordered trace of
the file reads, parser calls, captioning calls and writes it performs. -/

/-- External calls performed by `load_or_create_index` and its helpers:
loading the persisted index and node list (lines 75-77), PDF parsing
(line 82), image listing (line 58), per-image captioning (line 64), the
processed-image-set save (line 68), the embedding loop (line 98), and the
index/node persistence (lines 104-106). -/
inductive IngestEvent
  | readIndex
  | loadNodes
  | parsePdf
  | getImages
  | captionImage (path : String)
  | saveProcessed
  | embedNodes
  | writeIndex
  | saveNodes
deriving DecidableEq, Repr

/-- Starting state of one `load_or_create_index` call: whether each of the
two persisted files is present (line 73), the image paths the parser would
report for the PDF, and the previously processed image set (lines 43-48). -/
structure IngestEnv where
  faissIndexExists : Bool
  nodesDataExists : Bool
  images : List String
  processedImages : List String
deriving DecidableEq, Repr

/-- The captioning loop of `process_new_images` (lines 61-66): caption each
image not in the processed set, adding it to the set as it goes (a repeated
path is captioned only once). -/
def newImageCaptions (processed : List String) : List String → List String
  | [] => []
  | p :: ps =>
      if processed.contains p then newImageCaptions processed ps
      else p :: newImageCaptions (p :: processed) ps

/-- Embedding of `load_or_create_index` (lines 71-108): when both persisted
files are present, load them and return (lines 73-78); otherwise parse the
PDF, caption the new images, embed everything and persist (lines 80-108). -/
def load_or_create_index (env : IngestEnv) : List IngestEvent :=
  if env.faissIndexExists && env.nodesDataExists then
    [IngestEvent.readIndex, IngestEvent.loadNodes]
  else
    [IngestEvent.parsePdf, IngestEvent.getImages] ++
    (newImageCaptions env.processedImages env.images).map IngestEvent.captionImage ++
    [IngestEvent.saveProcessed, IngestEvent.embedNodes, IngestEvent.writeIndex,
     IngestEvent.saveNodes]

end MultiModal

/-- C6: when both persisted files (the FAISS index file and the nodes file)
are present, `load_or_create_index` only loads them — no PDF parsing, no
image listing, no captioning, no embedding; and the extraction path (PDF
parsing) runs exactly when at least one of the two files is absent. -/
theorem c6_load_or_create_index_short_circuit (env : MultiModal.IngestEnv) :
    (env.faissIndexExists = true → env.nodesDataExists = true →
      MultiModal.load_or_create_index env =
        [MultiModal.IngestEvent.readIndex, MultiModal.IngestEvent.loadNodes] ∧
      MultiModal.IngestEvent.parsePdf ∉ MultiModal.load_or_create_index env ∧
      MultiModal.IngestEvent.getImages ∉ MultiModal.load_or_create_index env ∧
      MultiModal.IngestEvent.embedNodes ∉ MultiModal.load_or_create_index env ∧
      ∀ p, MultiModal.IngestEvent.captionImage p ∉
        MultiModal.load_or_create_index env) ∧
    ((env.faissIndexExists = false ∨ env.nodesDataExists = false) →
      MultiModal.IngestEvent.parsePdf ∈ MultiModal.load_or_create_index env) := by
  constructor
  · intro hf hn
    refine ⟨?_, ?_, ?_, ?_, ?_⟩ <;>
      simp [MultiModal.load_or_create_index, hf, hn]
  · intro hcase
    rcases hcase with hf | hn
    · simp [MultiModal.load_or_create_index, hf]
    · simp [MultiModal.load_or_create_index, hn]

/-- Witness for C6 at concrete starting states: both files present (pure
load) and one file absent (extraction runs). -/
theorem c6_load_or_create_index_short_circuit_witness :
    MultiModal.load_or_create_index
      { faissIndexExists := true, nodesDataExists := true,
        images := ["img1"], processedImages := [] } =
      [MultiModal.IngestEvent.readIndex, MultiModal.IngestEvent.loadNodes] ∧
    MultiModal.IngestEvent.parsePdf ∈ MultiModal.load_or_create_index
      { faissIndexExists := true, nodesDataExists := false,
        images := ["img1"], processedImages := [] } := by
  constructor
  · exact ((c6_load_or_create_index_short_circuit _).1 rfl rfl).1
  · exact (c6_load_or_create_index_short_circuit _).2 (Or.inr rfl)

namespace TokenReader

/-! ## `src/SW2/CheckTokens/CheckFungibleToken.py`

Normalization of raw integer contract readings (lines 52-55):
`totalSupply / 10**decimals` with Python true division.  For the operands of
claim C8 the division is exact: `123 * 10^18 = 469207763671875 * 2^18` and
`10^18 = 3814697265625 * 2^18` both have mantissas below `2^53`, and their
exact quotient `123` is representable, so the IEEE-754 binary64 division the
Python code performs returns exactly `123.0` and is modelled faithfully by
rational division. -/

/-- `raw / 10**decimals` over the rationals. -/
def normalizeTokenAmount (raw decimals : ℕ) : ℚ :=
  (raw : ℚ) / 10 ^ decimals

end TokenReader

/-- C8: a raw contract reading of `totalSupply = 123000000000000000000`
normalized with `decimals = 18` is exactly `123`. -/
theorem c8_token_normalization :
    TokenReader.normalizeTokenAmount 123000000000000000000 18 = 123 := by
  norm_num [TokenReader.normalizeTokenAmount]

